import Mathlib

/-!
Verification of the Code Sentinel query pipeline
(`core/query/query_parser.py`, `core/query/query_optimizer.py`,
`core/query/query_executor.py`) against its natural-language specification.

The Python code is shallowly embedded: every definition below is a direct
translation of the corresponding Python function.  Python strings are Lean
`String`s, Python lists are Lean `List`s, `None`-able values are `Option`s,
raised exceptions are `Except`/`Option` error components, and Python floats
are modelled as rationals (`ℚ`).  Library calls on the boundary of the
translated code (the `re` regex engine, the filesystem, the extractor
objects) are modelled as explicit parameters of the embedding.
-/

/-! ## Models of the Python string primitives used by the code -/

/-- Model of the Python whitespace set used by `str.strip` / `str.split`. -/
def isPySpace (c : Char) : Bool :=
  c = (' ') ∨ c = ('\t') ∨ c = ('\n') ∨ c = ('\r') ∨ c = ('\x0b') ∨ c = ('\x0c')

/-- Model of Python `needle in hay` (substring containment) on char lists:
true iff `needle` occurs as a contiguous sublist of `hay`. -/
def listContains (hay needle : List Char) : Bool :=
  if needle.isPrefixOf hay then true
  else
    match hay with
    | [] => false
    | _ :: t => listContains t needle

/-- Model of Python `needle in hay` on strings. -/
def pyContains (hay needle : String) : Bool :=
  listContains hay.toList needle.toList

/-- Fuel-driven worker for `pyReplace`: replaces occurrences of `sep` by
`rep` left to right, non-overlapping, exactly as Python `str.replace`. -/
def pyReplaceFuel (sep rep : List Char) : Nat → List Char → List Char
  | 0, l => l
  | _ + 1, [] => []
  | n + 1, c :: rest =>
    if sep.isPrefixOf (c :: rest) then
      rep ++ pyReplaceFuel sep rep n (List.drop sep.length (c :: rest))
    else
      c :: pyReplaceFuel sep rep n rest

/-- Model of Python `s.replace(sep, rep)` for non-empty `sep` (the code only
ever calls it with non-empty separators). -/
def pyReplace (s sep rep : String) : String :=
  ⟨pyReplaceFuel sep.toList rep.toList s.toList.length s.toList⟩

/-- Split at the first occurrence of `needle`, returning the parts before and
after it; `none` when `needle` does not occur.  Models Python
`s.split(needle, 1)` (which returns two parts exactly when `needle` occurs). -/
def splitOnceCL (needle : List Char) : List Char → Option (List Char × List Char)
  | [] => if needle.isPrefixOf [] then some ([], []) else none
  | c :: rest =>
    if needle.isPrefixOf (c :: rest) then some ([], List.drop needle.length (c :: rest))
    else
      match splitOnceCL needle rest with
      | some (pre, post) => some (c :: pre, post)
      | none => none

/-- String version of `splitOnceCL`. -/
def pySplitOnceOpt (s needle : String) : Option (String × String) :=
  match splitOnceCL needle.toList s.toList with
  | some (pre, post) => some (⟨pre⟩, ⟨post⟩)
  | none => none

/-- Worker for `pySplitWs`: accumulates the current word (reversed). -/
def pySplitWsAux : List Char → List Char → List (List Char)
  | cur, [] => if cur.isEmpty then [] else [cur.reverse]
  | cur, c :: rest =>
    if isPySpace c then
      if cur.isEmpty then pySplitWsAux [] rest
      else cur.reverse :: pySplitWsAux [] rest
    else pySplitWsAux (c :: cur) rest

/-- Model of Python `s.split()` (no separator): split on whitespace runs,
discarding empty parts. -/
def pySplitWs (s : String) : List String :=
  (pySplitWsAux [] s.toList).map (fun l => ⟨l⟩)

/-- Model of Python `s.strip()`. -/
def pyStrip (s : String) : String :=
  ⟨(((s.toList.dropWhile isPySpace).reverse.dropWhile isPySpace).reverse)⟩

/-- ASCII case folding of one character; models Python `str.lower` on the
ASCII subset actually exercised by the code. -/
def pyLowerChar (c : Char) : Char :=
  if 65 ≤ c.toNat ∧ c.toNat ≤ 90 then Char.ofNat (c.toNat + 32) else c

/-- Model of Python `s.lower()` (ASCII subset). -/
def pyLower (s : String) : String :=
  ⟨s.toList.map pyLowerChar⟩

/-- Model of Python `sep.join(xs)`. -/
def pyJoin (sep : String) : List String → String
  | [] => ("")
  | [x] => x
  | x :: y :: xs => x ++ sep ++ pyJoin sep (y :: xs)

/-- Fuel-driven worker for `pySplitOn`: split on every occurrence of `sep`,
keeping empty parts, exactly as Python `s.split(sep)` with non-empty `sep`. -/
def pySplitAllFuel (sep : List Char) : Nat → List Char → List (List Char)
  | 0, l => [l]
  | n + 1, l =>
    match splitOnceCL sep l with
    | none => [l]
    | some (pre, post) => pre :: pySplitAllFuel sep n post

/-- Model of Python `s.split(sep)` for non-empty `sep`. -/
def pySplitOn (s sep : String) : List String :=
  (pySplitAllFuel sep.toList s.toList.length s.toList).map (fun l => ⟨l⟩)

/-- Model of Python `str(x)` on an optional string (`None` prints as "None"),
as used by the f-string building the optimizer's pattern cache key. -/
def pyShowOptStr : Option String → String
  | none => ("None")
  | some s => s

/-- Model of Python `str(b)` on a bool, as used by the same f-string. -/
def pyShowBool : Bool → String
  | true => ("True")
  | false => ("False")

/-! ## Data model (`query_parser.py` dataclasses) -/

/-- `QueryType` enum from `query_parser.py`. -/
inductive QueryType where
  | PATTERN_MATCH
  | AST_ANALYSIS
  | DATAFLOW
  | SECURITY
  | METRICS
deriving DecidableEq, Repr

/-- `PatternNode` dataclass: a pattern matching query. -/
structure PatternNode where
  pattern : String
  language : Option String := none
  case_sensitive : Bool := true
  whole_word : Bool := false
  location : Option String := none
deriving DecidableEq, Repr

/-- `DataflowNode` dataclass: a dataflow analysis query.  The Python field
`sanitizers` defaults to `None` and may hold a list, hence `Option`. -/
structure DataflowNode where
  source : String
  sink : String
  sanitizers : Option (List String) := none
  location : Option String := none
deriving DecidableEq, Repr

/-- `MetricsNode` dataclass: a code metrics query.  Python float threshold is
modelled as a rational. -/
structure MetricsNode where
  metric_type : String
  threshold : Option ℚ := none
  location : Option String := none
deriving DecidableEq, Repr

/-- The query IR: Python uses a `QueryNode` base class with the three node
subclasses; `base` models a bare `QueryNode` value of no recognized subclass
(the `isinstance` dispatch in the optimizer and executor falls through on
it). -/
inductive QueryNode where
  | pattern (p : PatternNode)
  | dataflow (d : DataflowNode)
  | metrics (m : MetricsNode)
  | base (location : Option String)
deriving DecidableEq, Repr

/-- The variant tag of a query IR value. -/
inductive QueryKind where
  | pattern
  | dataflow
  | metrics
  | base
deriving DecidableEq, Repr

/-- Variant tag of a `QueryNode`. -/
def QueryNode.kind : QueryNode → QueryKind
  | .pattern _ => .pattern
  | .dataflow _ => .dataflow
  | .metrics _ => .metrics
  | .base _ => .base

/-! ## `QueryParser` (`query_parser.py`) -/

namespace QueryParser

/-- `QueryParser._determine_query_type`: keyword-scan classification. -/
def determine_query_type (query_text : String) : QueryType :=
  let lower_query := pyLower query_text
  if [("flow"), ("from"), ("to"), ("sink")].any (fun kw => pyContains lower_query kw) then
    QueryType.DATAFLOW
  else if [("metric"), ("count"), ("complexity")].any (fun kw => pyContains lower_query kw) then
    QueryType.METRICS
  else
    QueryType.PATTERN_MATCH

/-- One inline-modifier extraction step of `_parse_pattern_query`: when
`marker` occurs in `t`, take the first whitespace token after it as the value
and rebuild the text as `parts[0] + ' '.join(parts[1].split()[1:])`.  An
empty remainder reproduces the Python `IndexError` (`parts[1].split()[0]`),
which the surrounding `parse` turns into a `QueryParseError`. -/
def extractModifier (t marker : String) : Except String (String × Option String) :=
  if pyContains t marker then
    match pySplitOnceOpt t marker with
    | some (before, after) =>
      match pySplitWs after with
      | [] => Except.error ("list index out of range")
      | w :: rest => Except.ok (before ++ pyJoin (" ") rest, some w)
    | none => Except.error ("unreachable: marker checked by containment test")
  else
    Except.ok (t, none)

/-- `QueryParser._parse_pattern_query`: extracts `language:` and `case:`
modifiers; no other modifier is recognized and `whole_word` is never set. -/
def parse_pattern_query (query_text : String) : Except String PatternNode :=
  match extractModifier query_text ("language:") with
  | Except.error e => Except.error e
  | Except.ok (t1, language) =>
    match extractModifier t1 ("case:") with
    | Except.error e => Except.error e
    | Except.ok (t2, caseTok) =>
      let case_sensitive :=
        match caseTok with
        | none => true
        | some w => !([("false"), ("no"), ("0")].contains (pyLower w))
      Except.ok
        { pattern := pyStrip t2
          language := language
          case_sensitive := case_sensitive }

/-- `QueryParser._parse_dataflow_query`. -/
def parse_dataflow_query (query_text : String) : Except String DataflowNode :=
  if !(pyContains query_text ("from")) ∨ !(pyContains query_text ("to")) then
    Except.error ("Dataflow query must specify from and to")
  else
    match pySplitOnceOpt query_text ("from") with
    | none => Except.error ("unreachable: from checked by containment test")
    | some (_, afterFrom) =>
      match pySplitOnceOpt afterFrom ("to") with
      | none =>
        -- Python: `split('from',1)[1].split('to',1)` then `parts[1]` raises
        -- IndexError when `to` only occurred before `from`.
        Except.error ("list index out of range")
      | some (p0, sink_part) =>
        let source := pyStrip p0
        if pyContains sink_part ("sanitize") then
          match pySplitOnceOpt sink_part ("sanitize") with
          | none => Except.error ("unreachable: sanitize checked by containment test")
          | some (s0, s1) =>
            Except.ok
              { source := source
                sink := pyStrip s0
                sanitizers := some ((pySplitOn s1 (",")).map pyStrip) }
        else
          Except.ok
            { source := source
              sink := pyStrip sink_part
              sanitizers := some [] }

/-- Model of Python `s.replace('.','').isdigit()`: non-empty and all digits
once the dots are removed. -/
def dotsRemovedIsDigit (s : String) : Bool :=
  let stripped := s.toList.filter (fun c => c ≠ ('.'))
  !stripped.isEmpty ∧ stripped.all (fun c => c.isDigit)

/-- Model of Python `float(s)` restricted to the strings that pass
`dotsRemovedIsDigit` (digits and dots): it succeeds iff there is at most one
dot, giving integer part . fractional part as a rational. -/
def pyFloatOpt (s : String) : Option ℚ :=
  let cs := s.toList
  if cs.count ('.') ≤ 1 then
    match splitOnceCL [('.')] cs with
    | some (ip, fp) =>
      some ((Nat.ofDigits 10 ((ip.map (fun c => c.toNat - 48)).reverse) : ℚ)
        + (Nat.ofDigits 10 ((fp.map (fun c => c.toNat - 48)).reverse) : ℚ)
          / ((10 : ℚ) ^ fp.length))
    | none => some ((Nat.ofDigits 10 ((cs.map (fun c => c.toNat - 48)).reverse) : ℚ))
  else
    none

/-- `QueryParser._parse_metrics_query`. -/
def parse_metrics_query (query_text : String) : Except String MetricsNode :=
  match pySplitWs query_text with
  | [] => Except.error ("list index out of range")
  | first :: rest =>
    let metric_type := pyLower first
    match rest with
    | [] => Except.ok { metric_type := metric_type, threshold := none }
    | second :: _ =>
      if dotsRemovedIsDigit second then
        match pyFloatOpt second with
        | some v => Except.ok { metric_type := metric_type, threshold := some v }
        | none =>
          -- float('1.2.3') raises ValueError, re-raised by parse as ParseError
          Except.error ("could not convert string to float")
      else
        Except.ok { metric_type := metric_type, threshold := none }

/-- `QueryParser.parse`: strip, classify, dispatch; any exception from the
branch (including the inner `QueryParseError`s) is re-raised wrapped in
`QueryParseError("Failed to parse query: ...")`. -/
def parse (query_text : String) : Except String QueryNode :=
  let t := pyStrip query_text
  let inner : Except String QueryNode :=
    match determine_query_type t with
    | QueryType.PATTERN_MATCH => (parse_pattern_query t).map QueryNode.pattern
    | QueryType.DATAFLOW => (parse_dataflow_query t).map QueryNode.dataflow
    | QueryType.METRICS => (parse_metrics_query t).map QueryNode.metrics
    | _ => Except.error ("Unsupported query type")
  match inner with
  | Except.ok n => Except.ok n
  | Except.error e => Except.error (("Failed to parse query: ") ++ e)

end QueryParser

/-! ## `QueryOptimizer` (`query_optimizer.py`) -/

namespace QueryOptimizer

/-- The optimizer's mutable caches (`self._pattern_cache`,
`self._dataflow_cache`): dicts modelled as association lists.  The pattern
cache maps a signature key to a (always empty) set of strings; the dataflow
cache maps a signature key to the normalized sanitizer list. -/
structure OptState where
  pattern_cache : List (String × List String)
  dataflow_cache : List (String × List String)
deriving DecidableEq, Repr

/-- The state of a freshly constructed `QueryOptimizer` (both caches empty). -/
def emptyOptState : OptState := { pattern_cache := [], dataflow_cache := [] }

/-- The f-string cache key of `_optimize_pattern_query`. -/
def patternCacheKey (q : PatternNode) : String :=
  q.pattern ++ (":") ++ pyShowOptStr q.language ++ (":") ++ pyShowBool q.case_sensitive

/-- The f-string cache key of `_optimize_dataflow_query`. -/
def dataflowCacheKey (q : DataflowNode) : String :=
  q.source ++ (":") ++ q.sink

/-- `QueryOptimizer._optimize_wildcards`: collapse `.*.*` once, then strip a
leading and a trailing `.*`. -/
def optimize_wildcards (pattern : String) : String :=
  let l1 := (pyReplace pattern (".*.*") (".*")).toList
  let l2 := if ((".*").toList).isPrefixOf l1 then l1.drop 2 else l1
  let l3 := if (((".*").toList).reverse).isPrefixOf l2.reverse then l2.dropLast.dropLast else l2
  ⟨l3⟩

/-- `QueryOptimizer._optimize_char_classes`: the sequential replacement table,
in Python dict insertion order. -/
def optimize_char_classes (pattern : String) : String :=
  let p1 := pyReplace pattern ("[0-9]") ("\\d")
  let p2 := pyReplace p1 ("[^0-9]") ("\\D")
  let p3 := pyReplace p2 ("[a-zA-Z0-9_]") ("\\w")
  let p4 := pyReplace p3 ("[^a-zA-Z0-9_]") ("\\W")
  let p5 := pyReplace p4 ("[ \\t\\n\\r\\f\\v]") ("\\s")
  pyReplace p5 ("[^ \\t\\n\\r\\f\\v]") ("\\S")

/-- The full pattern rewrite performed on a cache miss: wildcards first, then
character classes. -/
def rewritePattern (pattern : String) : String :=
  optimize_char_classes (optimize_wildcards pattern)

/-- `QueryOptimizer._optimize_pattern_query`: on a cache hit the input node is
returned as is; on a miss the pattern is rewritten, the signature is cached
(with an empty usage set as value) and a new node is built. -/
def optimize_pattern_query (st : OptState) (query : PatternNode) :
    OptState × PatternNode :=
  let cache_key := patternCacheKey query
  if (st.pattern_cache.lookup cache_key).isSome then
    (st, query)
  else
    let pat := rewritePattern query.pattern
    ({ st with pattern_cache := (cache_key, []) :: st.pattern_cache },
      { pattern := pat
        language := query.language
        case_sensitive := query.case_sensitive
        whole_word := query.whole_word
        location := query.location })

/-- `QueryOptimizer._estimate_sanitizer_complexity`. -/
def estimate_sanitizer_complexity (sanitizer : String) : Nat :=
  sanitizer.length + sanitizer.toList.count ('.') * 2

/-- Model of Python `list(dict.fromkeys(l))`: deduplicate keeping the first
occurrence of each element. -/
def pyDedup (l : List String) : List String :=
  l.foldl (fun acc x => if acc.contains x then acc else acc ++ [x]) []

/-- The sanitizer sort order used by `_optimize_dataflow_query`. -/
def sanitizerLE (a b : String) : Prop :=
  estimate_sanitizer_complexity a ≤ estimate_sanitizer_complexity b

instance : DecidableRel sanitizerLE := fun a b => Nat.decLe _ _

instance : IsTotal String sanitizerLE := ⟨fun a b => Nat.le_total _ _⟩

instance : IsTrans String sanitizerLE := ⟨fun _ _ _ => Nat.le_trans⟩

/-- `QueryOptimizer._optimize_dataflow_query`: cache hit returns the input
node; otherwise the sanitizer list (when truthy) is deduplicated and sorted
ascending by complexity (Python's stable `list.sort(key=...)`, modelled by
insertion sort, which is stable), the signature is cached, and a new node is
built.  A `None` or empty sanitizer list becomes `None`. -/
def optimize_dataflow_query (st : OptState) (query : DataflowNode) :
    OptState × DataflowNode :=
  let cache_key := dataflowCacheKey query
  if (st.dataflow_cache.lookup cache_key).isSome then
    (st, query)
  else
    let sanitizers : Option (List String) :=
      match query.sanitizers with
      | some l =>
        if !l.isEmpty then some (List.insertionSort sanitizerLE (pyDedup l))
        else none
      | none => none
    ({ st with dataflow_cache := (cache_key, sanitizers.getD []) :: st.dataflow_cache },
      { source := query.source
        sink := query.sink
        sanitizers := sanitizers
        location := query.location })

/-- Banker's rounding to an integer, as Python `round` on ties. -/
def roundHalfEven (q : ℚ) : ℤ :=
  let f := ⌊q⌋
  let frac := q - f
  if frac < 1 / 2 then f
  else if 1 / 2 < frac then f + 1
  else if f % 2 = 0 then f else f + 1

/-- Model of Python `round(x, 3)` on the rational model of floats. -/
def round3 (q : ℚ) : ℚ :=
  (roundHalfEven (q * 1000) : ℚ) / 1000

/-- `QueryOptimizer._optimize_metrics_query`: lower-case the metric type and
round the threshold to three decimals. -/
def optimize_metrics_query (query : MetricsNode) : MetricsNode :=
  { metric_type := pyLower query.metric_type
    threshold := query.threshold.map round3
    location := query.location }

/-- `QueryOptimizer.optimize`: `isinstance` dispatch on the node type; values
of no recognized subclass are returned unchanged.  All branch bodies are
total, so the `except`-rewrap into `QueryOptimizationError` is dead in the
model. -/
def optimize (st : OptState) (query : QueryNode) : OptState × QueryNode :=
  match query with
  | QueryNode.pattern p =>
    let r := optimize_pattern_query st p
    (r.1, QueryNode.pattern r.2)
  | QueryNode.dataflow d =>
    let r := optimize_dataflow_query st d
    (r.1, QueryNode.dataflow r.2)
  | QueryNode.metrics m => (st, QueryNode.metrics (optimize_metrics_query m))
  | QueryNode.base loc => (st, QueryNode.base loc)

end QueryOptimizer

/-! ## `QueryExecutor` (`query_executor.py`) -/

namespace QueryExecutor

/-- Values stored in a `QueryResult.metadata` dict (Python is dynamically
typed: the code stores strings, ints and floats). -/
inductive MetaVal where
  | str (v : String)
  | nat (v : Nat)
  | rat (v : ℚ)
deriving DecidableEq, Repr

/-- `QueryResult` dataclass.  `confidence` (a Python float) is a rational. -/
structure QueryResult where
  file_path : String
  line_number : Nat
  column : Nat
  snippet : String
  confidence : ℚ := 1
  metadata : Option (List (String × MetaVal)) := none
deriving DecidableEq, Repr

/-- Errors escaping `execute`.  `queryExecutionError` is
`QueryExecutionError`; `timeoutError` models the Python builtin
`TimeoutError` that the docstring of `execute` promises on budget
exhaustion. -/
inductive ExecError where
  | queryExecutionError (msg : String)
  | timeoutError (msg : String)
deriving DecidableEq, Repr

/-- The executor's constructor configuration (`self.max_workers`,
`self.timeout` read from the config dict in `__init__`). -/
structure ExecConfig where
  max_workers : Nat := 4
  timeout_seconds : ℚ := 300

/-- The readable filesystem: a path-indexed table of line lists (lines shown
without their trailing newline).  A path that is absent models a missing,
unreadable or directory path, whose `open` raises. -/
abbrev FileSystem := List (String × List String)

/-- A compiled regex, abstracted to its match function: for a line of text it
returns the list of matches as (0-based start offset, matched text), in
ascending position order as `re.finditer` yields them. -/
abbrev Matcher := String → List (Nat × String)

/-- The external collaborators of the executor: the extractor predicates
(`supports_file`), the `re.compile` oracle (taking the pattern text and the
case-sensitivity flag, failing on an invalid pattern with the `re.error`
message), and the filesystem. -/
structure ExecEnv where
  extractors : List (String → Bool)
  compile : String → Bool → Except String Matcher
  fs : FileSystem

/-- Model of `pathlib.Path.suffix`: the extension (with dot) of the final
path component, empty when there is no dot, the dot is leading, or the dot is
trailing. -/
def path_suffix (p : String) : String :=
  let name := ((p.toList.reverse.takeWhile (fun c => c ≠ ('/'))).reverse)
  let revName := name.reverse
  let ext := revName.takeWhile (fun c => c ≠ ('.'))
  if 1 ≤ ext.length ∧ ext.length + 1 < revName.length then ⟨('.') :: ext.reverse⟩
  else ("")

/-- The fixed extension-to-language table in `_should_process_file`. -/
def language_map (ext : String) : Option String :=
  if ext = (".py") then some ("python")
  else if ext = (".js") then some ("javascript")
  else if ext = (".java") then some ("java")
  else if ext = (".cpp") then some ("cpp")
  else if ext = (".c") then some ("c")
  else none

/-- `QueryExecutor._should_process_file`: at least one extractor must support
the file; when a (truthy, i.e. non-empty) language is required, the lowered
extension must map to the lowered language. -/
def should_process_file (extractors : List (String → Bool)) (file_path : String)
    (required_language : Option String) : Bool :=
  if !(extractors.any (fun ext => ext file_path)) then false
  else
    match required_language with
    | none => true
    | some lang =>
      if lang = ("") then true
      else language_map (pyLower (path_suffix file_path)) == some (pyLower lang)

/-- Look up a file's lines; `none` models an `open` failure. -/
def readLines (fs : FileSystem) (file_path : String) : Option (List String) :=
  fs.lookup file_path

/-- `QueryExecutor._search_file`: line-by-line regex scan with 1-based line
and column numbers, the stripped line as snippet and the matched text in
metadata; any read error yields zero results for the file. -/
def search_file (fs : FileSystem) (file_path : String) (pattern : Matcher) :
    List QueryResult :=
  match readLines fs file_path with
  | none => []
  | some lines =>
    lines.enum.flatMap (fun p =>
      (pattern p.2).map (fun m =>
        { file_path := file_path
          line_number := p.1 + 1
          column := m.1 + 1
          snippet := pyStrip p.2
          metadata := some [(("match"), MetaVal.str m.2)] }))

/-- `QueryExecutor._find_pattern`: compile (raising on an invalid pattern,
with no flags, i.e. case-sensitively) and scan the eligible files
sequentially. -/
def find_pattern (env : ExecEnv) (pattern : String) (target_paths : List String) :
    Except String (List QueryResult) :=
  match env.compile pattern true with
  | Except.error e => Except.error e
  | Except.ok regex =>
    Except.ok ((target_paths.filter
        (fun p => should_process_file env.extractors p none)).flatMap
      (fun p => search_file env.fs p regex))

/-- `QueryExecutor._is_sanitized`: the sanitizer string occurs as a substring
of some line of the Python slice `lines[source.line_number-1 : sink.line_number]`;
a read failure counts as not sanitized. -/
def is_sanitized (fs : FileSystem) (source sink : QueryResult) (sanitizer : String) :
    Bool :=
  match readLines fs source.file_path with
  | none => false
  | some lines =>
    (((lines.take sink.line_number).drop (source.line_number - 1)).any
      (fun line => listContains line.toList sanitizer.toList))

/-- `QueryExecutor._check_dataflow`: same file, source strictly before sink,
and no (truthy) sanitizer list entry sanitizing the range. -/
def check_dataflow (fs : FileSystem) (source sink : QueryResult)
    (sanitizers : Option (List String)) : Bool :=
  if source.file_path = sink.file_path ∧ source.line_number < sink.line_number then
    match sanitizers with
    | none => true
    | some [] => true
    | some l => !(l.any (fun sanitizer => is_sanitized fs source sink sanitizer))
  else false

/-- The finding built for a surviving (source, sink) pair in
`_execute_dataflow_query`. -/
def dataflowFinding (source sink : QueryResult) : QueryResult :=
  { file_path := source.file_path
    line_number := source.line_number
    column := source.column
    snippet := ("Dataflow from ") ++ source.snippet ++ (" to ") ++ sink.snippet
    confidence := 4 / 5
    metadata := some
      [(("source"), MetaVal.str source.snippet),
        (("sink"), MetaVal.str sink.snippet),
        (("sink_line"), MetaVal.nat sink.line_number)] }

/-- `QueryExecutor._execute_dataflow_query`: materialize all source matches,
then all sink matches, then emit one finding per pair passing
`_check_dataflow`. -/
def execute_dataflow_query (env : ExecEnv) (query : DataflowNode)
    (target_paths : List String) : Except String (List QueryResult) :=
  match find_pattern env query.source target_paths with
  | Except.error e => Except.error e
  | Except.ok source_results =>
    match find_pattern env query.sink target_paths with
    | Except.error e => Except.error e
    | Except.ok sink_results =>
      Except.ok (source_results.flatMap (fun source =>
        (sink_results.filter
          (fun sink => check_dataflow env.fs source sink query.sanitizers)).map
          (fun sink => dataflowFinding source sink)))

/-- The effective regex text compiled by `_execute_pattern_query`:
word-boundary wrapping when `whole_word` is set. -/
def effectivePattern (query : PatternNode) : String :=
  if query.whole_word then ("\\b") ++ query.pattern ++ ("\\b") else query.pattern

/-- `QueryExecutor._execute_pattern_query`: compile once (honouring
case-sensitivity and `whole_word`), then scan each eligible file; per-file
worker failures are printed and skipped.  The worker pool's completion order
is nondeterministic in Python; the model lists results in submission order. -/
def execute_pattern_query (env : ExecEnv) (query : PatternNode)
    (target_paths : List String) : Except String (List QueryResult) :=
  match env.compile (effectivePattern query) query.case_sensitive with
  | Except.error e => Except.error e
  | Except.ok regex =>
    Except.ok ((target_paths.filter
        (fun p => should_process_file env.extractors p query.language)).flatMap
      (fun p => search_file env.fs p regex))

/-- Regex word character (`\w`): ASCII letter, digit or underscore. -/
def isWordChar (c : Char) : Bool :=
  (('a') ≤ c ∧ c ≤ ('z')) ∨ (('A') ≤ c ∧ c ≤ ('Z')) ∨ (('0') ≤ c ∧ c ≤ ('9'))
    ∨ c = ('_')

/-- Worker splitting a char list into its maximal word-character runs. -/
def wordRunsAux : List Char → List Char → List (List Char)
  | cur, [] => if cur.isEmpty then [] else [cur.reverse]
  | cur, c :: rest =>
    if isWordChar c then wordRunsAux (c :: cur) rest
    else if cur.isEmpty then wordRunsAux [] rest
    else cur.reverse :: wordRunsAux [] rest

/-- Count of maximal word-character runs of `content` equal to a decision
keyword: models `len(re.findall(r'\b(if|while|for|and|or)\b', content))`,
whose matches are exactly those maximal runs. -/
def decisionPoints (content : String) : Nat :=
  ((wordRunsAux [] content.toList).filter
    (fun w => [("if"), ("while"), ("for"), ("and"), ("or")].contains (⟨w⟩ : String))).length

/-- `loc` metric: lines (split on newline) that are non-blank and not
comment-prefixed after stripping. -/
def locCount (content : String) : Nat :=
  ((pySplitOn content ("\n")).filter
    (fun l => !((pyStrip l).isEmpty) ∧ !((("#").toList).isPrefixOf (pyStrip l).toList))).length

/-- The file content read by `_calculate_metric` (`f.read()`), reconstructed
from the line model of the filesystem. -/
def fileContent (lines : List String) : String :=
  pyJoin ("\n") lines

/-- `QueryExecutor._calculate_metric`: complexity or loc for a readable file;
any other metric type (and any read failure) raises, wrapped in
`QueryExecutionError("Error calculating metric: ...")`. -/
def calculate_metric (fs : FileSystem) (file_path : String) (metric_type : String) :
    Except String ℚ :=
  match readLines fs file_path with
  | none => Except.error (("Error calculating metric: could not read file"))
  | some lines =>
    let content := fileContent lines
    if metric_type = ("complexity") then Except.ok (1 + (decisionPoints content : ℚ))
    else if metric_type = ("loc") then Except.ok ((locCount content : ℚ))
    else Except.error (("Error calculating metric: Unsupported metric type: ") ++ metric_type)

/-- The result record emitted by `_execute_metrics_query` for one file. -/
def metricsResult (file_path metric_type : String) (value : ℚ) : QueryResult :=
  { file_path := file_path
    line_number := 1
    column := 1
    snippet := metric_type ++ (": ") ++ toString value
    metadata := some [(("value"), MetaVal.rat value)] }

/-- `QueryExecutor._execute_metrics_query`: sequential per-file loop; a
per-file metric failure (including an unsupported metric type) is printed and
absorbed, yielding nothing for that file; a result is emitted when no
threshold is set or the value strictly exceeds it. -/
def execute_metrics_query (env : ExecEnv) (query : MetricsNode)
    (target_paths : List String) : List QueryResult :=
  target_paths.flatMap (fun path =>
    if should_process_file env.extractors path none then
      match calculate_metric env.fs path query.metric_type with
      | Except.error _ => []
      | Except.ok metric_value =>
        match query.threshold with
        | none => [metricsResult path query.metric_type metric_value]
        | some th =>
          if th < metric_value then [metricsResult path query.metric_type metric_value]
          else []
    else [])

/-- `QueryExecutor.execute`: dispatch on the IR variant inside a
`try/except` that rewraps any escaping exception in `QueryExecutionError`.
The result is the pair (results yielded, error raised after them); the
configuration is taken but — as in the source, where `self.timeout` is never
consulted — has no effect. -/
def execute (env : ExecEnv) (config : ExecConfig) (query : QueryNode)
    (target_paths : List String) : List QueryResult × Option ExecError :=
  match query with
  | QueryNode.pattern p =>
    match execute_pattern_query env p target_paths with
    | Except.ok rs => (rs, none)
    | Except.error e =>
      ([], some (ExecError.queryExecutionError (("Query execution failed: ") ++ e)))
  | QueryNode.dataflow d =>
    match execute_dataflow_query env d target_paths with
    | Except.ok rs => (rs, none)
    | Except.error e =>
      ([], some (ExecError.queryExecutionError (("Query execution failed: ") ++ e)))
  | QueryNode.metrics m => (execute_metrics_query env m target_paths, none)
  | QueryNode.base _ =>
    ([], some (ExecError.queryExecutionError
      (("Query execution failed: Unsupported query type"))))

end QueryExecutor

/-! ## Claim-side definitions and concrete test environments -/

namespace QueryExecutor

/-- Claim-side reading: line `i` (1-based) of the file at `path`. -/
def lineInFile (fs : FileSystem) (path : String) (i : Nat) : Option String :=
  (readLines fs path).bind (fun lines => lines.get? (i - 1))

/-- Claim-side condition, following the specification's wording: the
sanitizer string appears as a substring of some line in the inclusive line
range from `a` to `b` of the file at `path`. -/
def sanitizerInRange (fs : FileSystem) (path sanitizer : String) (a b : Nat) : Bool :=
  (List.range' a (b + 1 - a)).any (fun i =>
    match lineInFile fs path i with
    | some line => listContains line.toList sanitizer.toList
    | none => false)

/-- Claim-side qualification of a (source, sink) match pair: same file,
source line strictly below sink line, and no configured sanitizer appearing
in the inclusive source-to-sink line range. -/
def claimQualifies (fs : FileSystem) (sanitizers : Option (List String))
    (source sink : QueryResult) : Bool :=
  source.file_path == sink.file_path
    && decide (source.line_number < sink.line_number)
    && !((sanitizers.getD []).any (fun san =>
      sanitizerInRange fs source.file_path san source.line_number sink.line_number))

end QueryExecutor

/-- An extractor set that supports every file. -/
def alwaysExtractor : List (String → Bool) := [fun _ => true]

/-- A concrete regex oracle for witnesses: a literal-substring matcher
reporting one match at column offset 0 when the pattern text occurs in the
line. -/
def substrMatcher (pat : String) : QueryExecutor.Matcher := fun line =>
  if listContains line.toList pat.toList then [(0, pat)] else []

/-- A concrete execution environment whose regex engine is the
literal-substring matcher. -/
def envSubstr (fs : QueryExecutor.FileSystem) : QueryExecutor.ExecEnv :=
  { extractors := alwaysExtractor
    compile := fun pat _ => Except.ok (substrMatcher pat)
    fs := fs }

/-- A concrete execution environment whose regex engine rejects every
pattern, modelling `re.compile` raising `re.error`. -/
def envBadRegex : QueryExecutor.ExecEnv :=
  { extractors := alwaysExtractor
    compile := fun _ _ => Except.error ("missing closing parenthesis")
    fs := [] }

/-! ## Helper lemmas -/

theorem pyLowerChar_idem (c : Char) : pyLowerChar (pyLowerChar c) = pyLowerChar c := by
  by_cases h : 65 ≤ c.toNat ∧ c.toNat ≤ 90
  · have hv : (Char.ofNat (c.toNat + 32)).toNat = c.toNat + 32 := by
      rw [Char.ofNat, dif_pos (Or.inl (by omega))]
      rfl
    simp only [pyLowerChar, if_pos h, hv]
    rw [if_neg (by omega)]
  · simp only [pyLowerChar, if_neg h]

theorem pyLower_idem (s : String) : pyLower (pyLower s) = pyLower s := by
  show (⟨((s.toList.map pyLowerChar)).map pyLowerChar⟩ : String) = _
  rw [List.map_map]
  exact congrArg String.mk (List.map_congr_left (fun c _ => pyLowerChar_idem c))

theorem roundHalfEven_intCast (n : ℤ) : QueryOptimizer.roundHalfEven (n : ℚ) = n := by
  simp only [QueryOptimizer.roundHalfEven, Int.floor_intCast, sub_self]
  norm_num

theorem round3_idem (q : ℚ) : QueryOptimizer.round3 (QueryOptimizer.round3 q)
    = QueryOptimizer.round3 q := by
  unfold QueryOptimizer.round3
  rw [div_mul_cancel₀ _ (by norm_num : (1000 : ℚ) ≠ 0), roundHalfEven_intCast]

theorem lookup_insert_isSome {β : Type} (k : String) (v : β) (l : List (String × β)) :
    (((k, v) :: l).lookup k).isSome = true := by
  simp [List.lookup]

theorem optimize_dataflow_query_idem (st : QueryOptimizer.OptState) (d : DataflowNode) :
    (QueryOptimizer.optimize_dataflow_query
      (QueryOptimizer.optimize_dataflow_query st d).1
      (QueryOptimizer.optimize_dataflow_query st d).2).2
    = (QueryOptimizer.optimize_dataflow_query st d).2 := by
  by_cases h : (st.dataflow_cache.lookup (QueryOptimizer.dataflowCacheKey d)).isSome = true
  · simp only [QueryOptimizer.optimize_dataflow_query, if_pos h]
  · simp only [QueryOptimizer.optimize_dataflow_query, if_neg h]
    rw [if_pos]
    exact lookup_insert_isSome _ _ _

theorem optimize_metrics_query_idem (m : MetricsNode) :
    QueryOptimizer.optimize_metrics_query (QueryOptimizer.optimize_metrics_query m)
    = QueryOptimizer.optimize_metrics_query m := by
  cases hth : m.threshold with
  | none => simp [QueryOptimizer.optimize_metrics_query, hth, pyLower_idem]
  | some v => simp [QueryOptimizer.optimize_metrics_query, hth, pyLower_idem, round3_idem]

theorem optimize_pattern_query_idem (st : QueryOptimizer.OptState) (p : PatternNode)
    (h : QueryOptimizer.rewritePattern (QueryOptimizer.rewritePattern p.pattern)
      = QueryOptimizer.rewritePattern p.pattern) :
    (QueryOptimizer.optimize_pattern_query
      (QueryOptimizer.optimize_pattern_query st p).1
      (QueryOptimizer.optimize_pattern_query st p).2).2
    = (QueryOptimizer.optimize_pattern_query st p).2 := by
  by_cases h1 : (st.pattern_cache.lookup (QueryOptimizer.patternCacheKey p)).isSome = true
  · simp only [QueryOptimizer.optimize_pattern_query, if_pos h1]
  · simp only [QueryOptimizer.optimize_pattern_query, if_neg h1]
    split
    · rfl
    · simp [h]

/-! ## Claim theorems -/

/-- C1: the claim that a pattern-cache hit still returns the fully rewritten
value is violated by the code: with a fresh optimizer, the first optimization
of `PatternNode(".*test.*")` returns the rewritten pattern `"test"`, but the
second call on the very same IR hits the cache and returns the input
unrewritten (`".*test.*"`). -/
theorem C1_cache_hit_returns_input_unrewritten :
    ((QueryOptimizer.optimize QueryOptimizer.emptyOptState
        (QueryNode.pattern { pattern := (".*test.*") })).2
      = QueryNode.pattern { pattern := ("test") })
  ∧ ((QueryOptimizer.optimize
        ((QueryOptimizer.optimize QueryOptimizer.emptyOptState
          (QueryNode.pattern { pattern := (".*test.*") })).1)
        (QueryNode.pattern { pattern := (".*test.*") })).2
      = QueryNode.pattern { pattern := (".*test.*") }) :=
  ⟨by decide, by decide⟩

/-- C9: optimization never changes the variant tag of the IR it is given. -/
theorem C9_optimize_preserves_variant (st : QueryOptimizer.OptState) (q : QueryNode) :
    ((QueryOptimizer.optimize st q).2).kind = q.kind := by
  cases q <;> rfl

/-- C9 witness: the variant tag is preserved on a concrete metrics IR. -/
theorem C9_optimize_preserves_variant_witness :
    ((QueryOptimizer.optimize QueryOptimizer.emptyOptState
        (QueryNode.metrics { metric_type := ("LOC") })).2).kind
      = (QueryNode.metrics { metric_type := ("LOC") }).kind :=
  C9_optimize_preserves_variant QueryOptimizer.emptyOptState
    (QueryNode.metrics { metric_type := ("LOC") })

/-- C4 counterexample: the claim that empty input fails with ParseError is
violated: `parse ""` succeeds, returning a Pattern IR with empty pattern. -/
theorem C4_counterexample_empty_parses :
    QueryParser.parse ("") = Except.ok (QueryNode.pattern { pattern := ("") }) := rfl

/-- C4 (amended): for every empty or whitespace-only input, parse succeeds
and returns a Pattern IR with empty pattern text, no language and default
case sensitivity; it does not raise ParseError. -/
theorem C4_whitespace_parses_to_empty_pattern (s : String) (h : pyStrip s = ("")) :
    QueryParser.parse s = Except.ok (QueryNode.pattern { pattern := ("") }) := by
  unfold QueryParser.parse
  rw [h]
  rfl

/-- C4 witness: the amended statement evaluated on a concrete whitespace-only
input. -/
theorem C4_whitespace_parses_witness :
    QueryParser.parse ("  ") = Except.ok (QueryNode.pattern { pattern := ("") }) :=
  C4_whitespace_parses_to_empty_pattern ("  ") rfl

/-- C5: the configured timeout is never enforced: the result of `execute` is
entirely independent of `timeout_seconds`, and no call ever fails with
`TimeoutError`, although the docstring of `execute` promises it. -/
theorem C5_timeout_never_enforced :
    (∀ (env : QueryExecutor.ExecEnv) (mw : Nat) (t1 t2 : ℚ) (q : QueryNode)
        (paths : List String),
      QueryExecutor.execute env { max_workers := mw, timeout_seconds := t1 } q paths
        = QueryExecutor.execute env { max_workers := mw, timeout_seconds := t2 } q paths)
  ∧ (∀ (env : QueryExecutor.ExecEnv) (config : QueryExecutor.ExecConfig)
        (q : QueryNode) (paths : List String) (m : String),
      (QueryExecutor.execute env config q paths).2
        ≠ some (QueryExecutor.ExecError.timeoutError m)) := by
  constructor
  · intro env mw t1 t2 q paths
    rfl
  · intro env config q paths m
    cases q with
    | pattern p =>
      simp only [QueryExecutor.execute]
      cases QueryExecutor.execute_pattern_query env p paths <;> simp
    | dataflow d =>
      simp only [QueryExecutor.execute]
      cases QueryExecutor.execute_dataflow_query env d paths <;> simp
    | metrics m2 => simp [QueryExecutor.execute]
    | base loc => simp [QueryExecutor.execute]

/-- C10: for a Pattern IR whose (effective) pattern text the regex engine
rejects, `execute` produces no results and fails with `ExecutionError`
wrapping the regex error, rather than a parse-stage error. -/
theorem C10_invalid_regex_wrapped_in_execution_error
    (env : QueryExecutor.ExecEnv) (config : QueryExecutor.ExecConfig)
    (q : PatternNode) (paths : List String) (e : String)
    (h : env.compile (QueryExecutor.effectivePattern q) q.case_sensitive
      = Except.error e) :
    QueryExecutor.execute env config (QueryNode.pattern q) paths
      = ([], some (QueryExecutor.ExecError.queryExecutionError
          (("Query execution failed: ") ++ e))) := by
  simp only [QueryExecutor.execute, QueryExecutor.execute_pattern_query, h]

/-- C10 witness: a concrete environment rejecting the pattern `"("`. -/
theorem C10_invalid_regex_witness :
    QueryExecutor.execute envBadRegex {} (QueryNode.pattern { pattern := ("(") })
        [("a.py")]
      = ([], some (QueryExecutor.ExecError.queryExecutionError
          (("Query execution failed: ") ++ ("missing closing parenthesis")))) :=
  C10_invalid_regex_wrapped_in_execution_error envBadRegex {}
    { pattern := ("(") } [("a.py")] ("missing closing parenthesis") rfl


/-- C2 counterexample: `optimize` is not idempotent on the code: for the
Pattern IR with pattern `"a.*.*.*b"`, one optimization yields `"a.*.*b"`
(the single left-to-right replacement pass leaves a doubled wildcard), and a
second optimization of that result yields `"a.*b"`. -/
theorem C2_counterexample_not_idempotent :
    (QueryOptimizer.optimize
        ((QueryOptimizer.optimize QueryOptimizer.emptyOptState
          (QueryNode.pattern { pattern := ("a.*.*.*b") })).1)
        ((QueryOptimizer.optimize QueryOptimizer.emptyOptState
          (QueryNode.pattern { pattern := ("a.*.*.*b") })).2)).2
      ≠ (QueryOptimizer.optimize QueryOptimizer.emptyOptState
          (QueryNode.pattern { pattern := ("a.*.*.*b") })).2 := by decide

/-- C2 (amended): `optimize` is idempotent on every Dataflow, Metrics and
unrecognized IR value, and on a Pattern IR exactly under the proviso that the
wildcard/character-class rewrite is idempotent at its pattern text (which the
counterexample `"a.*.*.*b"` shows is not the case for every pattern). -/
theorem C2_optimize_idempotent_amended :
    (∀ (st : QueryOptimizer.OptState) (d : DataflowNode),
      (QueryOptimizer.optimize (QueryOptimizer.optimize st (QueryNode.dataflow d)).1
        ((QueryOptimizer.optimize st (QueryNode.dataflow d)).2)).2
        = (QueryOptimizer.optimize st (QueryNode.dataflow d)).2)
  ∧ (∀ (st : QueryOptimizer.OptState) (m : MetricsNode),
      (QueryOptimizer.optimize (QueryOptimizer.optimize st (QueryNode.metrics m)).1
        ((QueryOptimizer.optimize st (QueryNode.metrics m)).2)).2
        = (QueryOptimizer.optimize st (QueryNode.metrics m)).2)
  ∧ (∀ (st : QueryOptimizer.OptState) (loc : Option String),
      (QueryOptimizer.optimize (QueryOptimizer.optimize st (QueryNode.base loc)).1
        ((QueryOptimizer.optimize st (QueryNode.base loc)).2)).2
        = (QueryOptimizer.optimize st (QueryNode.base loc)).2)
  ∧ (∀ (st : QueryOptimizer.OptState) (p : PatternNode),
      QueryOptimizer.rewritePattern (QueryOptimizer.rewritePattern p.pattern)
        = QueryOptimizer.rewritePattern p.pattern →
      (QueryOptimizer.optimize (QueryOptimizer.optimize st (QueryNode.pattern p)).1
        ((QueryOptimizer.optimize st (QueryNode.pattern p)).2)).2
        = (QueryOptimizer.optimize st (QueryNode.pattern p)).2) := by
  refine ⟨fun st d => ?_, fun st m => ?_, fun st loc => rfl, fun st p h => ?_⟩
  · exact congrArg QueryNode.dataflow (optimize_dataflow_query_idem st d)
  · exact congrArg QueryNode.metrics (optimize_metrics_query_idem m)
  · exact congrArg QueryNode.pattern (optimize_pattern_query_idem st p h)

/-- C2 witness: the amended statement applied to the concrete pattern
`".*test.*"`, whose rewrite (`"test"`) is a fixed point. -/
theorem C2_optimize_idempotent_witness :
    (QueryOptimizer.optimize
        ((QueryOptimizer.optimize QueryOptimizer.emptyOptState
          (QueryNode.pattern { pattern := (".*test.*") })).1)
        ((QueryOptimizer.optimize QueryOptimizer.emptyOptState
          (QueryNode.pattern { pattern := (".*test.*") })).2)).2
      = (QueryOptimizer.optimize QueryOptimizer.emptyOptState
          (QueryNode.pattern { pattern := (".*test.*") })).2 :=
  (C2_optimize_idempotent_amended.2.2.2) QueryOptimizer.emptyOptState
    { pattern := (".*test.*") } (by decide)

theorem parse_pattern_query_whole_word (t : String) (p : PatternNode)
    (h : QueryParser.parse_pattern_query t = Except.ok p) : p.whole_word = false := by
  unfold QueryParser.parse_pattern_query at h
  split at h
  · exact absurd h (by simp)
  · split at h
    · exact absurd h (by simp)
    · simp only [Except.ok.injEq] at h
      rw [← h]

/-- C7 counterexample: the parser does not recognize the `word:<value>`
modifier: on the input `"foo word:true"` the token is not consumed (the
pattern text keeps it) and `whole_word` remains `false`, contradicting the
claim that `word:true` sets `whole_word=true` and removes the token. -/
theorem C7_counterexample_word_modifier_ignored :
    QueryParser.parse ("foo word:true")
      = Except.ok (QueryNode.pattern { pattern := ("foo word:true") }) := rfl

/-- C7 (amended): the pattern parser extracts only the `language:` and
`case:` inline modifiers; `word:<value>` is not recognized — it stays inside
the pattern text and every Pattern IR produced by `parse` has
`whole_word = false`. -/
theorem C7_parser_never_sets_whole_word (s : String) (p : PatternNode)
    (h : QueryParser.parse s = Except.ok (QueryNode.pattern p)) :
    p.whole_word = false := by
  unfold QueryParser.parse at h
  simp only at h
  split at h
  · next n heq =>
    rw [Except.ok.injEq] at h
    subst h
    split at heq
    · cases hq : QueryParser.parse_pattern_query (pyStrip s) with
      | ok p2 =>
        rw [hq] at heq
        simp only [Except.map, Except.ok.injEq, QueryNode.pattern.injEq] at heq
        rw [← heq]
        exact parse_pattern_query_whole_word _ _ hq
      | error e =>
        rw [hq] at heq
        simp [Except.map] at heq
    · cases hq : QueryParser.parse_dataflow_query (pyStrip s) with
      | ok d => rw [hq] at heq; simp [Except.map] at heq
      | error e => rw [hq] at heq; simp [Except.map] at heq
    · cases hq : QueryParser.parse_metrics_query (pyStrip s) with
      | ok m => rw [hq] at heq; simp [Except.map] at heq
      | error e => rw [hq] at heq; simp [Except.map] at heq
    · simp at heq
  · simp at h

/-- C7 witness: the amended statement applied to the concrete input
`"foo word:true"`. -/
theorem C7_parser_never_sets_whole_word_witness :
    ({ pattern := ("foo word:true") } : PatternNode).whole_word = false :=
  C7_parser_never_sets_whole_word ("foo word:true") { pattern := ("foo word:true") } rfl

/-- C8: on a non-cached Dataflow IR with a non-empty sanitizer list,
`optimize` returns a Dataflow IR whose sanitizer list is a permutation of the
first-seen-order deduplication of the input, sorted ascending by the
complexity score `length + 2 × dots`; in particular the list
`["escape.shell", "basic_check", "complex.validation.check"]` comes out as
`["basic_check", "escape.shell", "complex.validation.check"]`, with
`"basic_check"` first and `"complex.validation.check"` last. -/
theorem C8_sanitizer_dedup_and_sort :
    (∀ (st : QueryOptimizer.OptState) (d : DataflowNode) (l : List String),
      d.sanitizers = some l → l ≠ [] →
      (st.dataflow_cache.lookup (QueryOptimizer.dataflowCacheKey d)).isSome = false →
      ∃ l2, (QueryOptimizer.optimize st (QueryNode.dataflow d)).2
          = QueryNode.dataflow
              { source := d.source, sink := d.sink,
                sanitizers := some l2, location := d.location }
        ∧ l2.Perm (QueryOptimizer.pyDedup l)
        ∧ List.Sorted QueryOptimizer.sanitizerLE l2)
  ∧ (QueryOptimizer.optimize QueryOptimizer.emptyOptState (QueryNode.dataflow
      { source := ("user_input"), sink := ("os.system"),
        sanitizers := some [("escape.shell"), ("basic_check"), ("complex.validation.check")] })).2
    = QueryNode.dataflow
      { source := ("user_input"), sink := ("os.system"),
        sanitizers := some [("basic_check"), ("escape.shell"), ("complex.validation.check")] } := by
  constructor
  · intro st d l hs hne hclookup
    refine ⟨List.insertionSort QueryOptimizer.sanitizerLE (QueryOptimizer.pyDedup l), ?_,
      List.perm_insertionSort _ _, List.sorted_insertionSort _ _⟩
    simp only [QueryOptimizer.optimize, QueryOptimizer.optimize_dataflow_query]
    rw [if_neg (by simp [hclookup])]
    simp [hs, hne]
  · decide

/-- C8 witness: the universal part of the statement applied to the concrete
sanitizer list of the claim with a fresh optimizer. -/
theorem C8_sanitizer_dedup_and_sort_witness :
    ∃ l2, (QueryOptimizer.optimize QueryOptimizer.emptyOptState (QueryNode.dataflow
        { source := ("user_input"), sink := ("os.system"),
          sanitizers := some [("escape.shell"), ("basic_check"),
            ("complex.validation.check")] })).2
        = QueryNode.dataflow
            { source := ("user_input"), sink := ("os.system"),
              sanitizers := some l2, location := none }
      ∧ l2.Perm (QueryOptimizer.pyDedup
          [("escape.shell"), ("basic_check"), ("complex.validation.check")])
      ∧ List.Sorted QueryOptimizer.sanitizerLE l2 :=
  C8_sanitizer_dedup_and_sort.1 QueryOptimizer.emptyOptState
    { source := ("user_input"), sink := ("os.system"),
      sanitizers := some [("escape.shell"), ("basic_check"), ("complex.validation.check")] }
    [("escape.shell"), ("basic_check"), ("complex.validation.check")]
    rfl (by decide) (by decide)

theorem calculate_metric_unsupported (fs : QueryExecutor.FileSystem) (path mt : String)
    (h1 : mt ≠ ("complexity")) (h2 : mt ≠ ("loc")) :
    ∃ e, QueryExecutor.calculate_metric fs path mt = Except.error e := by
  unfold QueryExecutor.calculate_metric
  cases QueryExecutor.readLines fs path with
  | none => exact ⟨_, rfl⟩
  | some lines =>
    dsimp only
    rw [if_neg h1, if_neg h2]
    exact ⟨_, rfl⟩

theorem execute_metrics_query_unsupported (env : QueryExecutor.ExecEnv)
    (q : MetricsNode) (paths : List String)
    (h1 : q.metric_type ≠ ("complexity")) (h2 : q.metric_type ≠ ("loc")) :
    QueryExecutor.execute_metrics_query env q paths = [] := by
  induction paths with
  | nil => rfl
  | cons p ps ih =>
    simp only [QueryExecutor.execute_metrics_query] at ih ⊢
    rw [List.flatMap_cons, ih]
    obtain ⟨e, he⟩ := calculate_metric_unsupported env.fs p q.metric_type h1 h2
    by_cases hsp : QueryExecutor.should_process_file env.extractors p none = true
    · simp [hsp, he]
    · simp [hsp]

/-- C3 counterexample: the claim that an unsupported metric type fails the
whole `execute` call with ExecutionError is violated: on an environment that
does process `a.py` (the same call with metric `loc` emits a result for it),
the unsupported metric type `halstead` produces zero results and no error —
the per-file handler absorbs it. -/
theorem C3_counterexample_unsupported_metric_absorbed :
    (QueryExecutor.execute (envSubstr [(("a.py"), [("x = 1")])]) {}
      (QueryNode.metrics { metric_type := ("halstead") }) [("a.py")] = ([], none))
  ∧ (QueryExecutor.execute (envSubstr [(("a.py"), [("x = 1")])]) {}
      (QueryNode.metrics { metric_type := ("loc") }) [("a.py")]
    = ([{ file_path := ("a.py"), line_number := 1, column := 1,
          snippet := ("loc: 1"), confidence := 1,
          metadata := some [(("value"), QueryExecutor.MetaVal.rat 1)] }], none)) :=
  ⟨by decide, by decide⟩

/-- C3 (amended): for every Metrics IR whose metric type is neither
`complexity` nor `loc`, `execute` yields zero results and no error at all:
the `QueryExecutionError` raised per file by the metric calculation is caught
and absorbed (logged) by the per-file handler of the metrics loop, for every
file, instead of failing the whole call. -/
theorem C3_unsupported_metric_is_absorbed_per_file (env : QueryExecutor.ExecEnv)
    (config : QueryExecutor.ExecConfig) (q : MetricsNode) (paths : List String)
    (h1 : q.metric_type ≠ ("complexity")) (h2 : q.metric_type ≠ ("loc")) :
    QueryExecutor.execute env config (QueryNode.metrics q) paths = ([], none) := by
  simp [QueryExecutor.execute, execute_metrics_query_unsupported env q paths h1 h2]

/-- C3 witness: the amended statement applied to a concrete unsupported
metric type. -/
theorem C3_unsupported_metric_witness :
    QueryExecutor.execute envBadRegex {}
      (QueryNode.metrics { metric_type := ("cyclomatic") }) [("x.py")] = ([], none) :=
  C3_unsupported_metric_is_absorbed_per_file envBadRegex {}
    { metric_type := ("cyclomatic") } [("x.py")] (by decide) (by decide)

theorem list_any_congr {α : Type} {f g : α → Bool} :
    ∀ (l : List α), (∀ a ∈ l, f a = g a) → l.any f = l.any g
  | [], _ => rfl
  | x :: xs, h => by
    simp only [List.any_cons]
    rw [h x (by simp), list_any_congr xs (fun a ha => h a (by simp [ha]))]

theorem list_flatMap_congr {α β : Type} {f g : α → List β} :
    ∀ (l : List α), (∀ a ∈ l, f a = g a) → l.flatMap f = l.flatMap g
  | [], _ => rfl
  | x :: xs, h => by
    simp only [List.flatMap_cons]
    rw [h x (by simp), list_flatMap_congr xs (fun a ha => h a (by simp [ha]))]

theorem is_sanitized_eq_range (fs : QueryExecutor.FileSystem)
    (source sink : QueryExecutor.QueryResult) (san : String)
    (ha : 1 ≤ source.line_number) :
    QueryExecutor.is_sanitized fs source sink san
      = QueryExecutor.sanitizerInRange fs source.file_path san
          source.line_number sink.line_number := by
  obtain ⟨f, a, col, sn, conf, md⟩ := source
  obtain ⟨f2, b, col2, sn2, conf2, md2⟩ := sink
  have ha' : 1 ≤ a := ha
  simp only [QueryExecutor.is_sanitized, QueryExecutor.sanitizerInRange,
    QueryExecutor.lineInFile]
  cases hl : QueryExecutor.readLines fs f with
  | none => simp
  | some lines =>
    rw [Bool.eq_iff_iff]
    simp only [Option.some_bind, List.any_eq_true, List.mem_range'_1]
    constructor
    · rintro ⟨line, hmem, hp⟩
      rw [List.mem_iff_getElem?] at hmem
      obtain ⟨j, hj⟩ := hmem
      rw [List.getElem?_drop, List.getElem?_take] at hj
      by_cases hb : a - 1 + j < b
      · rw [if_pos hb] at hj
        refine ⟨a + j, ⟨by omega, by omega⟩, ?_⟩
        have he : a + j - 1 = a - 1 + j := by omega
        rw [List.get?_eq_getElem?, he, hj]
        exact hp
      · rw [if_neg hb] at hj
        exact absurd hj (by simp)
    · rintro ⟨i, ⟨hi1, hi2⟩, hp⟩
      cases hg : lines.get? (i - 1) with
      | none =>
        rw [hg] at hp
        exact absurd hp (by simp)
      | some line =>
        rw [hg] at hp
        refine ⟨line, ?_, hp⟩
        rw [List.mem_iff_getElem?]
        refine ⟨i - a, ?_⟩
        rw [List.getElem?_drop, List.getElem?_take]
        have h1 : a - 1 + (i - a) = i - 1 := by omega
        have h2 : a - 1 + (i - a) < b := by omega
        rw [if_pos h2, h1, ← List.get?_eq_getElem?]
        exact hg

theorem check_dataflow_eq_claimQualifies (fs : QueryExecutor.FileSystem)
    (sans : Option (List String)) (source sink : QueryExecutor.QueryResult)
    (ha : 1 ≤ source.line_number) :
    QueryExecutor.check_dataflow fs source sink sans
      = QueryExecutor.claimQualifies fs sans source sink := by
  unfold QueryExecutor.check_dataflow QueryExecutor.claimQualifies
  by_cases hg : source.file_path = sink.file_path
      ∧ source.line_number < sink.line_number
  · rw [if_pos hg]
    obtain ⟨hf, hlt⟩ := hg
    have hany : ∀ (l : List String),
        (l.any (fun sanitizer => QueryExecutor.is_sanitized fs source sink sanitizer))
          = (l.any (fun san => QueryExecutor.sanitizerInRange fs source.file_path san
              source.line_number sink.line_number)) := by
      intro l
      exact list_any_congr l (fun san _ => is_sanitized_eq_range fs source sink san ha)
    cases sans with
    | none => simp [hf, hlt]
    | some l =>
      cases l with
      | nil => simp [hf, hlt]
      | cons x xs => simp [hf, hlt, hany (x :: xs)]
  · rw [if_neg hg]
    rcases not_and_or.mp hg with hf | hlt
    · have hb : (source.file_path == sink.file_path) = false := by simp [hf]
      simp [hb]
    · have hb : decide (source.line_number < sink.line_number) = false := by simp [hlt]
      simp [hb]

theorem search_file_line_pos (fs : QueryExecutor.FileSystem) (p : String)
    (m : QueryExecutor.Matcher) (r : QueryExecutor.QueryResult)
    (hr : r ∈ QueryExecutor.search_file fs p m) : 1 ≤ r.line_number := by
  unfold QueryExecutor.search_file at hr
  cases hl : QueryExecutor.readLines fs p with
  | none => rw [hl] at hr; simp at hr
  | some lines =>
    rw [hl] at hr
    simp only [List.mem_flatMap, List.mem_map] at hr
    obtain ⟨pair, _, mt, _, heq⟩ := hr
    rw [← heq]
    exact Nat.le_add_left 1 pair.1

theorem find_pattern_line_pos (env : QueryExecutor.ExecEnv) (pat : String)
    (paths : List String) (rs : List QueryExecutor.QueryResult)
    (h : QueryExecutor.find_pattern env pat paths = Except.ok rs) :
    ∀ r ∈ rs, 1 ≤ r.line_number := by
  unfold QueryExecutor.find_pattern at h
  cases hc : env.compile pat true with
  | error e => rw [hc] at h; exact absurd h (by simp)
  | ok m =>
    rw [hc] at h
    simp only [Except.ok.injEq] at h
    subst h
    intro r hr
    simp only [List.mem_flatMap] at hr
    obtain ⟨p, _, hr2⟩ := hr
    exact search_file_line_pos env.fs p m r hr2

/-- C6: given the source-match and sink-match lists of a Dataflow execution,
the emitted findings are exactly one per (source, sink) pair that shares a
file with the source line strictly below the sink line and for which no
configured sanitizer appears as a substring of any line in the inclusive
line range from the source line to the sink line of that file; each finding
carries confidence 0.8 (= 4/5) and metadata with both snippets and the sink
line. -/
theorem C6_dataflow_findings_characterized (env : QueryExecutor.ExecEnv)
    (config : QueryExecutor.ExecConfig) (q : DataflowNode) (paths : List String)
    (srcs snks : List QueryExecutor.QueryResult)
    (h1 : QueryExecutor.find_pattern env q.source paths = Except.ok srcs)
    (h2 : QueryExecutor.find_pattern env q.sink paths = Except.ok snks) :
    QueryExecutor.execute env config (QueryNode.dataflow q) paths
      = (srcs.flatMap (fun s =>
          (snks.filter (fun k => QueryExecutor.claimQualifies env.fs q.sanitizers s k)).map
            (fun k =>
              { file_path := s.file_path, line_number := s.line_number,
                column := s.column,
                snippet := ("Dataflow from ") ++ s.snippet ++ (" to ") ++ k.snippet,
                confidence := 4 / 5,
                metadata := some [(("source"), QueryExecutor.MetaVal.str s.snippet),
                  (("sink"), QueryExecutor.MetaVal.str k.snippet),
                  (("sink_line"), QueryExecutor.MetaVal.nat k.line_number)] })), none) := by
  simp only [QueryExecutor.execute, QueryExecutor.execute_dataflow_query, h1, h2]
  have hmain : srcs.flatMap (fun source =>
        (snks.filter (fun sink =>
          QueryExecutor.check_dataflow env.fs source sink q.sanitizers)).map
          (fun sink => QueryExecutor.dataflowFinding source sink))
      = srcs.flatMap (fun s =>
          (snks.filter (fun k => QueryExecutor.claimQualifies env.fs q.sanitizers s k)).map
            (fun k =>
              { file_path := s.file_path, line_number := s.line_number,
                column := s.column,
                snippet := ("Dataflow from ") ++ s.snippet ++ (" to ") ++ k.snippet,
                confidence := 4 / 5,
                metadata := some [(("source"), QueryExecutor.MetaVal.str s.snippet),
                  (("sink"), QueryExecutor.MetaVal.str k.snippet),
                  (("sink_line"), QueryExecutor.MetaVal.nat k.line_number)] })) := by
    apply list_flatMap_congr
    intro s hs
    rw [List.filter_congr (fun k _ =>
      check_dataflow_eq_claimQualifies env.fs q.sanitizers s k
        (find_pattern_line_pos env q.source paths srcs h1 s hs))]
    rfl
  rw [hmain]

/-- C6 witness: the characterization applied to a concrete three-line file
with two source matches, one sink match and a sanitizer that does not occur,
yielding exactly one finding per qualifying pair with confidence 0.8. -/
theorem C6_dataflow_findings_witness :
    QueryExecutor.execute
        (envSubstr [(("app.py"),
          [("user_input = get()"), ("x = cook(user_input)"), ("os.system(x)")])]) {}
        (QueryNode.dataflow
          { source := ("user_input"), sink := ("os.system"),
            sanitizers := some [("escape")] })
        [("app.py")]
      = ([{ file_path := ("app.py"), line_number := 1, column := 1,
            snippet := ("Dataflow from user_input = get() to os.system(x)"),
            confidence := 4 / 5,
            metadata := some
              [(("source"), QueryExecutor.MetaVal.str ("user_input = get()")),
                (("sink"), QueryExecutor.MetaVal.str ("os.system(x)")),
                (("sink_line"), QueryExecutor.MetaVal.nat 3)] },
          { file_path := ("app.py"), line_number := 2, column := 1,
            snippet := ("Dataflow from x = cook(user_input) to os.system(x)"),
            confidence := 4 / 5,
            metadata := some
              [(("source"), QueryExecutor.MetaVal.str ("x = cook(user_input)")),
                (("sink"), QueryExecutor.MetaVal.str ("os.system(x)")),
                (("sink_line"), QueryExecutor.MetaVal.nat 3)] }], none) :=
  (C6_dataflow_findings_characterized
    (envSubstr [(("app.py"),
      [("user_input = get()"), ("x = cook(user_input)"), ("os.system(x)")])]) {}
    { source := ("user_input"), sink := ("os.system"), sanitizers := some [("escape")] }
    [("app.py")]
    [{ file_path := ("app.py"), line_number := 1, column := 1,
        snippet := ("user_input = get()"), confidence := 1,
        metadata := some [(("match"), QueryExecutor.MetaVal.str ("user_input"))] },
      { file_path := ("app.py"), line_number := 2, column := 1,
        snippet := ("x = cook(user_input)"), confidence := 1,
        metadata := some [(("match"), QueryExecutor.MetaVal.str ("user_input"))] }]
    [{ file_path := ("app.py"), line_number := 3, column := 1,
        snippet := ("os.system(x)"), confidence := 1,
        metadata := some [(("match"), QueryExecutor.MetaVal.str ("os.system"))] }]
    rfl rfl).trans rfl

/-- C5 witness: the result of `execute` on a concrete call is unchanged when
the timeout budget is dropped from its default to zero. -/
theorem C5_timeout_never_enforced_witness :
    QueryExecutor.execute envBadRegex { max_workers := 4, timeout_seconds := 0 }
        (QueryNode.pattern { pattern := ("x") }) [("a.py")]
      = QueryExecutor.execute envBadRegex { max_workers := 4, timeout_seconds := 1000000 }
        (QueryNode.pattern { pattern := ("x") }) [("a.py")] :=
  C5_timeout_never_enforced.1 envBadRegex 4 0 1000000
    (QueryNode.pattern { pattern := ("x") }) [("a.py")]
